import Mathlib

set_option maxRecDepth 8192

/-!
Verification development for the Conversation-Assistant repository: a shallow
embedding of its command interpretation and contact/message resolution
pipeline (the clients `whatsapp_ai_control.py`, `whatsapp_ai_control_mcp.py`,
`whatsapp_interactive.py` and the relay server `mcp/server.py`).

External collaborators (Selenium UI automation, the Gemini completion
service, `json.loads`, the relay transport) are modelled as function-valued
parameters bundled into collaborator records; everything written in the
repository itself is translated to executable Lean definitions.
-/

/-- Message direction: the `"type"` field (`"incoming"` / `"outgoing"`) of the
message dicts built by `get_chat_messages`. -/
inductive Direction where
  | incoming
  | outgoing
deriving DecidableEq, Repr, Inhabited

/-- Message dict of `WhatsAppAIControl.get_chat_messages` (keys `text`,
`sender`, `type`, `timestamp`, `index`). -/
structure CtrlMsg where
  text : String
  sender : String
  type : Direction
  timestamp : Option String := none
  index : Nat := 0
deriving DecidableEq, Repr, Inhabited

/-- Message dict of `WhatsAppAIControlMCP.get_chat_messages` (keys `text`,
`sender`, `type`). -/
structure McpMsg where
  text : String
  sender : String
  type : Direction
deriving DecidableEq, Repr, Inhabited

/-- Chat dict of `get_chats` (the `element` key is a Selenium handle and is
used only inside the UI collaborator, so it is not part of the data model). -/
structure CtrlChat where
  name : String
  last_message : String
deriving DecidableEq, Repr, Inhabited

/-- Python `str.lower()` (character-wise lowering; the repository only ever
compares chat names and commands, which are plain text). -/
def pyLower (s : String) : String := String.mk (s.data.map Char.toLower)

/-- Python substring test `needle in hay`. -/
def strContains (needle hay : String) : Bool :=
  (List.range (hay.data.length + 1)).any
    (fun i => needle.data.isPrefixOf (hay.data.drop i))

/-- Python slice `l[-n:]` for a positive literal `n` (the repository uses it
only with the constants 3, 5, 10 and 50). -/
def takeLast (n : Nat) (l : List α) : List α := l.drop (l.length - n)

/-- Python `str.capitalize()`: first character upper-cased, rest lower-cased. -/
def pyCapitalize (s : String) : String :=
  match s.data with
  | [] => ""
  | c :: cs => String.mk (c.toUpper :: cs.map Char.toLower)

/-- Python negative indexing `l[-p]` as the source uses it under its own
bounds guard (`p = 0` reads `l[0]` in Python); out-of-range reads would raise
in Python but never occur under the guard, so they return `default` here. -/
def pyNegGet [Inhabited α] (l : List α) (p : Nat) : α :=
  if p = 0 then l.getD 0 default else l.getD (l.length - p) default

/-- Python f-string rendering of an optional string (`None` prints as
`"None"`). -/
def pyOptStr (o : Option String) : String := o.getD "None"

/-- `re.search(r'\x7b.*\x7d', reply, re.DOTALL)`: the match exists exactly
when some `\x7b` has a `\x7d` after it, and then spans from the first `\x7b`
to the last `\x7d` of the reply (leftmost start, greedy end). -/
def extractJson (s : String) : Option String :=
  let l := s.data
  let firstOpen := (l.enum.find? (fun p => p.2 == '{')).map (·.1)
  let lastClose := ((l.enum.filter (fun p => p.2 == '}')).map (·.1)).getLast?
  match firstOpen, lastClose with
  | some i, some j => if i < j then some (String.mk ((l.drop i).take (j + 1 - i))) else none
  | _, _ => none

/-! ## A model of `difflib.get_close_matches` (Python standard library)

`find_best_contact_match` and the relay server call
`get_close_matches(name, contact_list, n=1, cutoff=0.6)`.  The model below
follows CPython's `difflib.SequenceMatcher` with `a` the candidate contact,
`b` the queried word, no junk, and strings far below the autojunk threshold
(autojunk only fires for `len(b) >= 200`).  Ratios are exact rationals; the
float cutoff comparison agrees with the rational one for all sizes that can
occur here. -/

/-- Ascending occurrence indices of `c` in `l` (difflib's `b2j` entry). -/
def charIndices (c : Char) (l : List Char) : List Nat :=
  (l.enum.filter (fun p => p.2 == c)).map (·.1)

/-- Result of `SequenceMatcher.find_longest_match`. -/
structure FlmBest where
  besti : Nat
  bestj : Nat
  bestsize : Nat
deriving DecidableEq, Repr, Inhabited

/-- `find_longest_match(alo, ahi, blo, bhi)`, no junk: the `j2len` dynamic
programming pass; with no junk the later junk-extension phases never fire. -/
def flm (a b : List Char) (alo ahi blo bhi : Nat) : FlmBest :=
  let step : ((Nat → Nat) × FlmBest) → Nat → ((Nat → Nat) × FlmBest) := fun acc i =>
    let j2len := acc.1
    let js := (charIndices (a.getD i default) b).filter
      (fun j => decide (blo ≤ j) && decide (j < bhi))
    js.foldl
      (fun (p : (Nat → Nat) × FlmBest) j =>
        let k := (if j = 0 then 0 else j2len (j - 1)) + 1
        let nj := fun j' => if j' = j then k else p.1 j'
        let best := if p.2.bestsize < k then FlmBest.mk (i + 1 - k) (j + 1 - k) k else p.2
        (nj, best))
      (fun _ => 0, acc.2)
  ((List.range' alo (ahi - alo)).foldl step (fun _ => 0, FlmBest.mk alo blo 0)).2

/-- Total size of all matching blocks (the `M` of `ratio = 2M/T`), by the
recursive split of `get_matching_blocks`; `fuel` bounds the recursion depth
and `seqMatchTotal` always supplies enough of it. -/
def matchSum (a b : List Char) : Nat → Nat → Nat → Nat → Nat → Nat
  | 0, _, _, _, _ => 0
  | fuel + 1, alo, ahi, blo, bhi =>
    let r := flm a b alo ahi blo bhi
    if r.bestsize = 0 then 0
    else
      r.bestsize + matchSum a b fuel alo r.besti blo r.bestj
        + matchSum a b fuel (r.besti + r.bestsize) ahi (r.bestj + r.bestsize) bhi

/-- `M` for the full strings: `sum(size for block in get_matching_blocks)`. -/
def seqMatchTotal (a b : List Char) : Nat :=
  matchSum a b (a.length + b.length + 1) 0 a.length 0 b.length

/-- Multiplicity of `c` in `l`. -/
def countChar (l : List Char) (c : Char) : Nat := (l.filter (· == c)).length

/-- The matches count of `SequenceMatcher.quick_ratio`: multiset
intersection size of the two character sequences. -/
def quickMatches (a b : List Char) : Nat :=
  a.dedup.foldl (fun s c => s + min (countChar a c) (countChar b c)) 0

/-- `_calculate_ratio(m, t) >= 0.6` by exact cross multiplication
(`2m/t ≥ 3/5` iff `10m ≥ 3t`; for `t = 0` the ratio is `1.0`). -/
def cutoffOk (m t : Nat) : Bool := if t = 0 then true else decide (3 * t ≤ 10 * m)

/-- `2*m1/t1 > 2*m0/t0` by exact cross multiplication (a ratio with `t = 0`
is `1.0`). -/
def ratioGt (m1 t1 m0 t0 : Nat) : Bool :=
  if t1 = 0 then (if t0 = 0 then false else decide (2 * m0 < t0))
  else if t0 = 0 then decide (t1 < 2 * m1)
  else decide (m0 * t1 < m1 * t0)

/-- `2*m1/t1 = 2*m0/t0` by exact cross multiplication (a ratio with `t = 0`
is `1.0`). -/
def ratioEq (m1 t1 m0 t0 : Nat) : Bool :=
  if t1 = 0 then (if t0 = 0 then true else decide (2 * m0 = t0))
  else if t0 = 0 then decide (2 * m1 = t1)
  else decide (m1 * t0 = m0 * t1)

/-- `difflib.get_close_matches(word, possibilities, n=1, cutoff=0.6)`:
keep the possibilities whose `real_quick_ratio`, `quick_ratio` and `ratio`
all clear the cutoff, then return the maximum by the Python tuple order on
`(ratio, possibility)` (first seen wins ties, as `max` keeps the current
value unless a later one is strictly greater). -/
def getCloseMatches1 (word : String) (poss : List String) : Option String :=
  let w := word.data
  let scored := poss.filterMap (fun x =>
    let xa := x.data
    let t := xa.length + w.length
    if cutoffOk (min xa.length w.length) t && cutoffOk (quickMatches xa w) t
        && cutoffOk (seqMatchTotal xa w) t then
      some (seqMatchTotal xa w, t, x)
    else none)
  let best := scored.foldl
    (fun best cur =>
      match best with
      | none => some cur
      | some b =>
        if ratioGt cur.1 cur.2.1 b.1 b.2.1
            || (ratioEq cur.1 cur.2.1 b.1 b.2.1 && decide (b.2.2 < cur.2.2)) then
          some cur
        else some b)
    none
  best.map (·.2.2)

/-! ## `src/client/whatsapp_ai_control.py` — action data and the standalone client -/

/-- The parsed JSON action dict: a field is `none` when the key is absent,
and every read in the source goes through `.get` with the documented
default. -/
structure ActionData where
  action : Option String := none
  contact : Option String := none
  message : Option String := none
  count : Option Nat := none
  query_type : Option String := none
  position : Option Nat := none
deriving DecidableEq, Repr, Inhabited

namespace WhatsAppAIControl

/-- Collaborators of `WhatsAppAIControl`: the Selenium-backed chat
operations, the Gemini completion service (`(prompt, system_prompt)` to
reply), and `json.loads` (error = raised `JSONDecodeError`). -/
structure Collab where
  get_chats : List CtrlChat
  get_chat_messages : String → Nat → List CtrlMsg
  send_message : String → String → Bool
  gemini : String → String → String
  json_loads : String → Except String ActionData

/-- Mutable session state of `WhatsAppAIControl` touched by command
processing (`message_history` is only touched by the monitor loop, modelled
separately below). -/
structure State where
  running : Bool := true
  auto_reply : Bool := false
deriving DecidableEq, Repr, Inhabited

/-- `f"\x7bi\x7d. \x7bchat['name']\x7d\n"` rows from `enumerate(..., 1)`. -/
def numberedList (names : List String) : String :=
  String.join (names.enum.map (fun p => toString (p.1 + 1) ++ ". " ++ p.2 ++ "\n"))

/-- The `suffix` local of `WhatsAppAIControl._ordinal`. -/
def pySuffix (n : Nat) : String :=
  if 10 ≤ n % 100 ∧ n % 100 ≤ 20 then "th"
  else if n % 10 = 1 then "st"
  else if n % 10 = 2 then "nd"
  else if n % 10 = 3 then "rd"
  else "th"

/-- `WhatsAppAIControl._ordinal`: `f"\x7bn\x7d\x7bsuffix\x7d"`. -/
def ordinal (n : Nat) : String := toString n ++ pySuffix n

/-- The `position_text` local of the `position_from_contact` branch:
`"last" if position == 1 else f"\x7bself._ordinal(position)\x7d last"`. -/
def positionText (position : Nat) : String :=
  if position = 1 then "last" else ordinal position ++ " last"

/-- The timestamp suffix of the `read`/`all` formatting:
`f" [\x7bmsg['timestamp']\x7d]" if msg.get('timestamp') else ""`. -/
def timestampSuffix (ts : Option String) : String :=
  match ts with
  | some t => if t ≠ "" then " [" ++ t ++ "]" else ""
  | none => ""

/-- `WhatsAppAIControl.execute_action` (the standalone executor): dispatch on
the parsed action dict, calling the collaborators and mutating only
`auto_reply`.  Total: no branch of this variant can raise. -/
def execute_action (c : Collab) (st : State) (d : ActionData) : State × String :=
  let action := d.action.getD ""
  if action = "send" then
    let contact := d.contact.getD ""
    let message := d.message.getD ""
    if c.send_message contact message then
      (st, "✅ Sent to " ++ contact ++ ": '" ++ message ++ "'")
    else
      (st, "❌ Failed to send to " ++ contact)
  else if action = "list" then
    let chats := c.get_chats
    if chats = [] then (st, "No chats found.")
    else (st, "📋 **Your Contacts:**\n" ++ numberedList ((chats.take 15).map (·.name)))
  else if action = "summary" then
    let contact := d.contact.getD ""
    let messages := c.get_chat_messages contact 20
    if messages = [] then (st, "No messages found with " ++ contact)
    else
      let message_texts := messages.map (fun m => m.sender ++ ": " ++ m.text)
      let summary := c.gemini
        ("Summarize in 3 bullet points:\n" ++ String.intercalate "\n" message_texts)
        "Create a concise summary."
      (st, "📊 **Summary of " ++ contact ++ ":**\n" ++ summary)
  else if action = "suggest" then
    let contact := d.contact.getD ""
    let messages := c.get_chat_messages contact 10
    let incoming_msgs := messages.filter (fun m => m.type == Direction.incoming)
    let context :=
      if incoming_msgs ≠ [] then
        String.intercalate "\n" ((takeLast 3 incoming_msgs).map (·.text))
      else "No messages"
    let suggestions := c.gemini ("Suggest 3 replies for:\n" ++ context)
      "Generate 3 brief message suggestions."
    (st, "💡 **Suggestions for " ++ contact ++ ":**\n" ++ suggestions)
  else if action = "read" then
    let contact := d.contact.getD ""
    let count := d.count.getD 10
    let query_type := d.query_type.getD "all"
    let position := d.position.getD 1
    let messages := c.get_chat_messages contact count
    if messages = [] then (st, "No messages with " ++ contact)
    else if query_type = "last_from_contact" then
      let incoming := messages.filter (fun m => m.type == Direction.incoming)
      if incoming ≠ [] then
        (st, "📖 **Last message from " ++ contact ++ ":** " ++ (incoming.getLastD default).text)
      else (st, "No recent messages from " ++ contact)
    else if query_type = "position_from_contact" then
      let incoming := messages.filter (fun m => m.type == Direction.incoming)
      if incoming ≠ [] ∧ position ≤ incoming.length then
        let target := pyNegGet incoming position
        (st, "📖 **" ++ pyCapitalize (positionText position) ++ " message from " ++ contact
          ++ ":** " ++ target.text)
      else
        (st, "Not enough messages from " ++ contact ++ " (only "
          ++ toString incoming.length ++ " found)")
    else if query_type = "last_from_me" then
      let outgoing := messages.filter (fun m => m.type == Direction.outgoing)
      if outgoing ≠ [] then
        (st, "📖 **Last message you sent to " ++ contact ++ ":** "
          ++ (outgoing.getLastD default).text)
      else (st, "No recent messages sent to " ++ contact)
    else
      (st, "📖 **Recent messages with " ++ contact ++ ":**\n" ++
        String.join ((takeLast 5 messages).map (fun m =>
          (if m.type == Direction.incoming then "← " else "→ ")
            ++ m.text ++ timestampSuffix m.timestamp ++ "\n")))
  else if action = "auto_on" then ({ st with auto_reply := true }, "🤖 Auto-reply enabled")
  else if action = "auto_off" then ({ st with auto_reply := false }, "🤖 Auto-reply disabled")
  else if action = "status" then
    (st, "Status: Auto-reply is " ++ (if st.auto_reply then "enabled" else "disabled"))
  else if action = "error" then (st, d.message.getD "Command not understood")
  else (st, "Unknown action")

/-- `WhatsAppAIControl.handle_direct_command`: the keyword-heuristic
fallback used when the model reply holds no JSON.  Total by construction. -/
def handle_direct_command (c : Collab) (st : State) (command : String) : State × String :=
  let cmd_lower := pyLower command
  if strContains "list" cmd_lower || strContains "contacts" cmd_lower then
    execute_action c st { action := some "list" }
  else if strContains "auto" cmd_lower && strContains "on" cmd_lower then
    execute_action c st { action := some "auto_on" }
  else if strContains "auto" cmd_lower && strContains "off" cmd_lower then
    execute_action c st { action := some "auto_off" }
  else if strContains "status" cmd_lower then
    execute_action c st { action := some "status" }
  else
    (st, "I didn't understand. Try: 'Send John a message' or 'List contacts'")

/-- The literal help text returned for `help` / `?`. -/
def helpText : String :=
  String.intercalate "\n"
    ["**Command Examples:**",
     "• Send a message: \"Send John a message saying hello\"",
     "• List contacts: \"Show me my contacts\" or \"list\"",
     "• Read messages: \"What did Sarah say?\" or \"Read Emma's messages\"",
     "• Summarize: \"Summarize my chat with Mike\"",
     "• Get suggestions: \"What should I reply to David?\"",
     "• Auto-reply: \"Turn on auto-reply\" or \"disable auto-reply\"",
     "• Exit: \"quit\" or \"exit\"",
     ""]

/-- The action-grammar system prompt of `process_command` (the Python
triple-quoted literal; literal braces written escaped). -/
def aiSystemPrompt : String :=
  String.intercalate "\n"
    ["You are a WhatsApp control assistant. Parse the user's command and respond with a JSON action.",
     "",
     "Actions:",
     "1. \x7b\"action\": \"send\", \"contact\": \"name\", \"message\": \"text\"\x7d",
     "2. \x7b\"action\": \"list\"\x7d",
     "3. \x7b\"action\": \"summary\", \"contact\": \"name\", \"count\": 20\x7d",
     "4. \x7b\"action\": \"suggest\", \"contact\": \"name\"\x7d",
     "5. \x7b\"action\": \"read\", \"contact\": \"name\", \"count\": 10, \"query_type\": \"all|last_from_contact|last_from_me|position_from_contact\", \"position\": N\x7d",
     "   - Use query_type: \"last_from_contact\" when user asks for last message FROM a contact",
     "   - Use query_type: \"last_from_me\" when user asks for last message TO a contact",
     "   - Use query_type: \"position_from_contact\" when user asks for Nth last message (second last, third last, etc.)",
     "   - Use query_type: \"all\" for general message reading",
     "   - position: 1 for last, 2 for second last, 3 for third last, etc.",
     "6. \x7b\"action\": \"auto_on\"\x7d or \x7b\"action\": \"auto_off\"\x7d",
     "7. \x7b\"action\": \"status\"\x7d",
     "8. \x7b\"action\": \"error\", \"message\": \"explanation\"\x7d",
     "",
     "Examples:",
     "- \"What did John say last?\" -> \x7b\"action\": \"read\", \"contact\": \"John\", \"count\": 20, \"query_type\": \"last_from_contact\"\x7d",
     "- \"What is the second last message of mehul?\" -> \x7b\"action\": \"read\", \"contact\": \"Mehul\", \"count\": 20, \"query_type\": \"position_from_contact\", \"position\": 2\x7d",
     "- \"What was mehul's third last message?\" -> \x7b\"action\": \"read\", \"contact\": \"Mehul\", \"count\": 20, \"query_type\": \"position_from_contact\", \"position\": 3\x7d",
     "- \"What did I last send to Sarah?\" -> \x7b\"action\": \"read\", \"contact\": \"Sarah\", \"count\": 20, \"query_type\": \"last_from_me\"\x7d",
     "- \"Show messages with Emma\" -> \x7b\"action\": \"read\", \"contact\": \"Emma\", \"count\": 10, \"query_type\": \"all\"\x7d",
     "",
     "Return ONLY the JSON, no other text."]

/-- `WhatsAppAIControl.process_command`: literal `help`/`quit` commands
short-circuit; otherwise the Gemini reply is searched for a brace-delimited
object (`extractJson`); found JSON is parsed and executed, a raised
`JSONDecodeError` surfaces as the outer handler's `"Error: ..."` text, and a
reply with no JSON falls back to `handle_direct_command`. -/
def process_command (c : Collab) (st : State) (command : String) : State × String :=
  if ["help", "?"].contains (pyLower command) then (st, helpText)
  else if ["quit", "exit", "stop"].contains (pyLower command) then
    ({ st with running := false }, "Stopping application...")
  else
    let ai_response := c.gemini command aiSystemPrompt
    match extractJson ai_response with
    | some js =>
      match c.json_loads js with
      | Except.ok d => execute_action c st d
      | Except.error e => (st, "Error: " ++ e)
    | none => handle_direct_command c st command

end WhatsAppAIControl

/-! ## Monitor-loop message history (C6) -/

/-- History entry appended by `WhatsAppAIControl.monitor_with_commands`
(keys `time`, `message`; the timestamp is opaque here). -/
structure HistEntry where
  time : Nat
  message : String
deriving DecidableEq, Repr, Inhabited

/-- History entry appended by
`WhatsAppInteractiveClient.monitor_with_interaction` (keys `time`,
`message`, `direction`). -/
structure HistEntryI where
  time : Nat
  message : String
  direction : String
deriving DecidableEq, Repr, Inhabited

/-- The new-message append of `WhatsAppAIControl.monitor_with_commands`:
`self.message_history[chat_name].append(...)` with no trimming. -/
def monitorAppendControl (h : List HistEntry) (e : HistEntry) : List HistEntry := h ++ [e]

/-- The new-message append of the interactive client's monitor loop:
append, then `if len > 50: keep the last 50`. -/
def monitorAppendInteractive (h : List HistEntryI) (e : HistEntryI) : List HistEntryI :=
  let h' := h ++ [e]
  if 50 < h'.length then takeLast 50 h' else h'

/-- The auto-reply outgoing append of the interactive client's monitor loop:
a plain `append` with no trim after it. -/
def monitorAppendOutgoingInteractive (h : List HistEntryI) (e : HistEntryI) : List HistEntryI :=
  h ++ [e]

/-! ## `src/client/whatsapp_ai_control_mcp.py` — the MCP-capable client -/

namespace WhatsAppAIControlMCP

/-- Collaborators of `WhatsAppAIControlMCP`: Selenium operations, Gemini,
`json.loads`, the relay-side contact/message fetches of `mcp_client`, and
Python `str()` of a dict (`repr_dict`, used by the source when it formats a
raw content dict). -/
structure Collab where
  get_chats : List CtrlChat
  get_chat_messages : String → Nat → List McpMsg
  send_message : String → String → Bool
  gemini : String → String → String
  json_loads : String → Except String ActionData
  mcp_get_contacts : List String
  mcp_get_messages : String → Nat → List String
  repr_dict : ActionData → String

/-- Mutable session state of `WhatsAppAIControlMCP` touched by command
processing (`message_history` is carried to state the frame conditions; the
command path never writes it). -/
structure State where
  use_mcp : Bool := false
  auto_reply : Bool := false
  last_contact : Option String := none
  contact_list : List String := []
  message_history : List (String × List HistEntry) := []
deriving DecidableEq, Repr, Inhabited

/-- `WhatsAppAIControlMCP.find_best_contact_match`, parameterized by the
fuzzy collaborator (`difflib.get_close_matches` with `n=1, cutoff=0.6` in the
source, modelled by `getCloseMatches1`): exact case-insensitive match first,
then fuzzy, then bidirectional substring containment, else the name
unchanged. -/
def find_best_contact_match (fuzzy : String → List String → Option String)
    (name : String) (contact_list : List String) : String :=
  if contact_list = [] then name
  else
    match contact_list.find? (fun contact => pyLower contact == pyLower name) with
    | some contact => contact
    | none =>
      match fuzzy name contact_list with
      | some m => m
      | none =>
        let name_lower := pyLower name
        match contact_list.find? (fun contact =>
            strContains name_lower (pyLower contact) || strContains (pyLower contact) name_lower) with
        | some contact => contact
        | none => name

/-- Python `str()` of a message dict of this client (`text`, `sender`,
`type`), as the `read` branch prints it; the modelled texts never contain a
quote, so `repr` uses single quotes throughout. -/
def msgRepr (m : McpMsg) : String :=
  "\x7b'text': '" ++ m.text ++ "', 'sender': '" ++ m.sender ++ "', 'type': '"
    ++ (match m.type with
        | Direction.incoming => "incoming"
        | Direction.outgoing => "outgoing") ++ "'\x7d"

/-- `f"\x7bi\x7d. \x7bcontact\x7d\n"` rows from `enumerate(..., 1)`. -/
def numberedRows (names : List String) : String :=
  String.join (names.enum.map (fun p => toString (p.1 + 1) ++ ". " ++ p.2 ++ "\n"))

/-- `f"  \x7bi\x7d. \x7bcontact\x7d\n"` rows (the MCP response formatting). -/
def numberedRowsIndented (names : List String) : String :=
  String.join (names.enum.map (fun p => "  " ++ toString (p.1 + 1) ++ ". " ++ p.2 ++ "\n"))

/-- `WhatsAppAIControlMCP.execute_action_direct`.  Result: state after the
call (Python keeps mutations made before a raise), the returned text or the
raised exception, and the number of relay-transport contacts made (the
`mcp_client` fetches in the `list`/`read` branches).  The `summary` and
`suggest` branches join message dicts with `"\n".join(...)`, which raises
`TypeError` in Python whenever the message list is non-empty. -/
def execute_action_direct (c : Collab) (st : State) (d : ActionData) :
    State × Except String String × Nat :=
  let action := d.action.getD ""
  if action = "send" then
    let contact0 := d.contact.getD ""
    let message := d.message.getD ""
    let contact := find_best_contact_match getCloseMatches1 contact0 st.contact_list
    let st' := { st with last_contact := some contact }
    if c.send_message contact message then
      (st', Except.ok ("✓ Sent to " ++ contact ++ ": '" ++ message ++ "'"), 0)
    else
      (st', Except.ok ("Failed to send to " ++ contact), 0)
  else if action = "list" then
    if st.use_mcp then
      let contacts := c.mcp_get_contacts
      (st, Except.ok ("Contacts (" ++ toString contacts.length ++ "):\n"
        ++ numberedRows (contacts.take 15)), 1)
    else
      let cl := c.get_chats.map (·.name)
      ({ st with contact_list := cl },
       Except.ok ("Contacts (" ++ toString cl.length ++ "):\n" ++ numberedRows (cl.take 15)), 0)
  else if action = "read" then
    let contact0 := d.contact.getD ""
    let contact := find_best_contact_match getCloseMatches1 contact0 st.contact_list
    let st' := { st with last_contact := some contact }
    if st.use_mcp then
      let messages := c.mcp_get_messages contact 10
      if messages = [] then (st', Except.ok ("No messages found with " ++ contact), 1)
      else
        (st', Except.ok ("Messages with " ++ contact ++ ":\n"
          ++ String.join ((takeLast 5 messages).map (fun m => "• " ++ m ++ "\n"))), 1)
    else
      let messages := (c.get_chat_messages contact 10).map msgRepr
      if messages = [] then (st', Except.ok ("No messages found with " ++ contact), 0)
      else
        (st', Except.ok ("Messages with " ++ contact ++ ":\n"
          ++ String.join ((takeLast 5 messages).map (fun m => "• " ++ m ++ "\n"))), 0)
  else if action = "summary" then
    let contact0 := d.contact.getD ""
    let contact := find_best_contact_match getCloseMatches1 contact0 st.contact_list
    let st' := { st with last_contact := some contact }
    let messages := c.get_chat_messages contact 20
    if messages = [] then
      (st', Except.ok ("No messages found with " ++ contact ++ " to summarize"), 0)
    else
      (st', Except.error "TypeError: sequence item 0: expected str instance, dict found", 0)
  else if action = "suggest" then
    let contact0 := d.contact.getD ""
    let contact := find_best_contact_match getCloseMatches1 contact0 st.contact_list
    let st' := { st with last_contact := some contact }
    let messages := c.get_chat_messages contact 10
    if messages = [] then
      (st', Except.ok ("No conversation found with " ++ contact), 0)
    else
      (st', Except.error "TypeError: sequence item 0: expected str instance, dict found", 0)
  else if action = "auto_on" then ({ st with auto_reply := true }, Except.ok "Auto-reply ON", 0)
  else if action = "auto_off" then ({ st with auto_reply := false }, Except.ok "Auto-reply OFF", 0)
  else (st, Except.ok "Unknown action", 0)

/-- `WhatsAppAIControlMCP.execute_action`: in MCP mode the action is shipped
to the relay (one transport contact); otherwise it is executed directly. -/
def execute_action (c : Collab) (st : State) (d : ActionData) :
    State × Except String String × Nat :=
  if st.use_mcp then
    (st, Except.ok ("Executing through MCP: " ++ pyOptStr d.action), 1)
  else execute_action_direct c st d

/-- The `context_info` local of `process_command_direct`
(`f"\nLast contact: \x7bself.last_contact\x7d" if self.last_contact else ""`). -/
def contextInfo (lc : Option String) : String :=
  match lc with
  | some s => if s ≠ "" then "\nLast contact: " ++ s else ""
  | none => ""

/-- The flexible-parsing system prompt of `process_command_direct` (Python
f-string; doubled braces of the source are the literal braces written
escaped here). -/
def mcpDirectSystemPrompt (st : State) : String :=
  String.intercalate "\n"
    ["You are an intelligent WhatsApp assistant.",
     "Understand intent even with typos, slang, shortcuts.",
     "",
     "Context:" ++ contextInfo st.last_contact,
     "Known contacts: " ++ (if st.contact_list ≠ [] then
       String.intercalate ", " (st.contact_list.take 20) else "Loading..."),
     "",
     "Parse commands flexibly and return JSON action:",
     "\x7b\"action\": \"send\", \"contact\": \"name\", \"message\": \"text\"\x7d",
     "\x7b\"action\": \"list\"\x7d",
     "\x7b\"action\": \"summary\", \"contact\": \"name\"\x7d",
     "\x7b\"action\": \"suggest\", \"contact\": \"name\"\x7d",
     "\x7b\"action\": \"read\", \"contact\": \"name\"\x7d",
     "\x7b\"action\": \"auto_on\"\x7d or \x7b\"action\": \"auto_off\"\x7d",
     "",
     "Be VERY tolerant of typos and informal language. Return ONLY JSON."]

/-- `WhatsAppAIControlMCP.process_command_direct`: pronoun pre-processing,
Gemini call, brace-delimited JSON extraction; parsed JSON is executed, a
`JSONDecodeError` is swallowed and, like a reply with no JSON at all, ends in
the literal capability text. -/
def process_command_direct (c : Collab) (st : State) (command : String) :
    State × Except String String × Nat :=
  let cmd_processed :=
    if (match st.last_contact with | some s => s ≠ "" | none => false)
        && (["him", "her", "them", "their", "his"].any
              (fun p => strContains p (pyLower command))) then
      command ++ " (referring to " ++ st.last_contact.getD "" ++ ")"
    else command
  let ai_response := c.gemini cmd_processed (mcpDirectSystemPrompt st)
  match extractJson ai_response with
  | some js =>
    match c.json_loads js with
    | Except.ok d => execute_action c st d
    | Except.error _ =>
      (st, Except.ok "I can help with: Send messages, Read/Summarize chats, List contacts.", 0)
  | none =>
    (st, Except.ok "I can help with: Send messages, Read/Summarize chats, List contacts.", 0)

/-- A relay response envelope as `process_command_mcp` reads it:
`response_type` and the `content` dict (absent `content` defaults to `{}`). -/
structure RelayResp where
  response_type : Option String := none
  content : Option ActionData := none
deriving DecidableEq, Repr, Inhabited

/-- `WhatsAppAIControlMCP.process_command_mcp`.  `relayReply = none` models
`send_request_and_wait` returning `None` (send failure or the bounded wait
timing out); the result counts relay round trips (the initial request is
one).  In the `position_from_contact` read branch the source evaluates the
name `position`, which is bound nowhere in that scope, so Python raises
`NameError` whenever the incoming filter is non-empty (with an empty filter
the `and` short-circuits before the unbound read).  On `None` the source
switches `use_mcp` off and reprocesses the same command directly. -/
def process_command_mcp (c : Collab) (relayReply : Option RelayResp) (st : State)
    (command : String) : State × Except String String × Nat :=
  match relayReply with
  | some response =>
    let content := response.content.getD {}
    if response.response_type = some "whatsapp_command_result" then
      let action := content.action
      if action = some "list" then
        (st, Except.ok ("📋 **Your Contacts (" ++ toString st.contact_list.length ++ "):**\n\n"
          ++ numberedRowsIndented (st.contact_list.take 15)), 1)
      else if action = some "send" then
        match content.contact, content.message with
        | some contact, some message =>
          if c.send_message contact message then
            (st, Except.ok ("✅ **Sent to " ++ contact ++ ":**\n→ " ++ message), 1)
          else (st, Except.ok ("❌ Failed to send to " ++ contact), 1)
        | _, _ =>
          (st, Except.error "AttributeError: 'NoneType' object has no attribute 'lower'", 1)
      else if action = some "read" then
        match content.contact with
        | none =>
          (st, Except.error "AttributeError: 'NoneType' object has no attribute 'lower'", 1)
        | some contact =>
          let count := content.count.getD 10
          let query_type := content.query_type.getD "all"
          let messages := c.get_chat_messages contact count
          if messages = [] then (st, Except.ok ("No messages found with " ++ contact), 1)
          else if query_type = "last_from_contact" then
            let incoming := messages.filter (fun m => m.type == Direction.incoming)
            if incoming ≠ [] then
              (st, Except.ok ("📖 **Last message from " ++ contact ++ ":**\n→ "
                ++ (incoming.getLastD default).text), 1)
            else (st, Except.ok ("❌ No recent messages from " ++ contact), 1)
          else if query_type = "position_from_contact" then
            let incoming := messages.filter (fun m => m.type == Direction.incoming)
            if incoming = [] then
              (st, Except.ok ("❌ Not enough messages from " ++ contact ++ " (only 0 found)"), 1)
            else
              (st, Except.error "NameError: name 'position' is not defined", 1)
          else if query_type = "last_from_me" then
            let outgoing := messages.filter (fun m => m.type == Direction.outgoing)
            if outgoing ≠ [] then
              (st, Except.ok ("📖 **Last message you sent to " ++ contact ++ ":**\n→ "
                ++ (outgoing.getLastD default).text), 1)
            else (st, Except.ok ("❌ No recent messages sent to " ++ contact), 1)
          else
            (st, Except.ok ("📖 **Recent messages with " ++ contact ++ ":**\n\n"
              ++ String.join ((takeLast 5 messages).map (fun m =>
                   (if m.type == Direction.incoming then "  ← " else "  → ") ++ m.text ++ "\n"))), 1)
      else if action = some "summary" then
        match content.contact with
        | none =>
          (st, Except.error "AttributeError: 'NoneType' object has no attribute 'lower'", 1)
        | some contact =>
          let messages := c.get_chat_messages contact 20
          if messages ≠ [] then
            let message_texts := messages.map (fun m => m.sender ++ ": " ++ m.text)
            let summary := c.gemini
              ("Summarize this WhatsApp conversation in 3 bullet points:\n"
                ++ String.intercalate "\n" message_texts)
              "Create a concise summary."
            (st, Except.ok ("📊 **Summary of chat with " ++ contact ++ ":**\n" ++ summary), 1)
          else (st, Except.ok ("No messages to summarize with " ++ contact), 1)
      else if action = some "suggest" then
        match content.contact with
        | none =>
          (st, Except.error "AttributeError: 'NoneType' object has no attribute 'lower'", 1)
        | some contact =>
          let messages := c.get_chat_messages contact 10
          if messages ≠ [] then
            let incoming_msgs := messages.filter (fun m => m.type == Direction.incoming)
            let context :=
              if incoming_msgs ≠ [] then
                String.intercalate "\n" ((takeLast 3 incoming_msgs).map (·.text))
              else "No messages"
            let suggestions := c.gemini
              ("Suggest 3 good replies for this conversation:\n" ++ context)
              "Generate 3 brief, natural message suggestions."
            (st, Except.ok ("💡 **Reply suggestions for " ++ contact ++ ":**\n" ++ suggestions), 1)
          else (st, Except.ok ("No conversation to analyze with " ++ contact), 1)
      else if action = some "auto_on" then
        ({ st with auto_reply := true }, Except.ok "Auto-reply ON", 1)
      else if action = some "auto_off" then
        ({ st with auto_reply := false }, Except.ok "Auto-reply OFF", 1)
      else (st, Except.ok (c.repr_dict content), 1)
    else if response.response_type = some "ai_parse_error" then
      (st, Except.ok "Could not understand command. Try: 'Send John a message' or 'List contacts'", 1)
    else (st, Except.ok (c.repr_dict content), 1)
  | none =>
    let st' := { st with use_mcp := false }
    let r := process_command_direct c st' command
    (r.1, r.2.1, 1 + r.2.2)

end WhatsAppAIControlMCP

/-! ## `src/mcp/server.py` and `send_message`'s own selection -/

namespace MCPServer

/-- The contact-matching step of `MCPServer.process_whatsapp_action` for the
`send`/`read`/`summary`/`suggest` actions: exact case-insensitive match wins,
else the fuzzy collaborator, else the name unchanged (evaluated only when
both the name and the contact list are non-empty). -/
def server_match_contact (fuzzy : String → List String → Option String)
    (contact : String) (contact_list : List String) : String :=
  if contact ≠ "" ∧ contact_list ≠ [] then
    match contact_list.find? (fun c => pyLower c == pyLower contact) with
    | some c => c
    | none => (fuzzy contact contact_list).getD contact
  else contact

end MCPServer

namespace WhatsAppAIControl

/-- The recent-chat selection of `WhatsAppAIControl.send_message` before its
search fallback: first exact case-insensitive match, else the first partial
match, which requires the candidate inside the chat name AND
`len(chat_name) >= 3`. -/
def send_select_from_recent (chatNames : List String) (chat_name : String) : Option String :=
  match chatNames.find? (fun n => pyLower n == pyLower chat_name) with
  | some n => some n
  | none =>
    chatNames.find? (fun n =>
      strContains (pyLower chat_name) (pyLower n) && decide (3 ≤ chat_name.length))

end WhatsAppAIControl

/-! ## Spec-side refinement definition and concrete fixtures -/

/-- Modelled from the spec's words (§4.3, §8) for comparison with the code's
`_ordinal`: English ordinal suffix rules `1→st, 2→nd, 3→rd, else→th`, with
the teens exception (remainder modulo 100 in 11..19) mapping to `th`. -/
def specOrdinalSuffix (n : Nat) : String :=
  if 11 ≤ n % 100 ∧ n % 100 ≤ 19 then "th"
  else if n % 10 = 1 then "st"
  else if n % 10 = 2 then "nd"
  else if n % 10 = 3 then "rd"
  else "th"

/-- The end-to-end scenario window of the spec:
`[hi:incoming, yo:outgoing, sup:incoming, bye:incoming]`. -/
def windowMsgs : List CtrlMsg :=
  [{ text := "hi", sender := "Priya", type := Direction.incoming },
   { text := "yo", sender := "You", type := Direction.outgoing },
   { text := "sup", sender := "Priya", type := Direction.incoming },
   { text := "bye", sender := "Priya", type := Direction.incoming }]

/-- A standalone-client collaborator whose message fetch returns the
scenario window. -/
def windowCollab : WhatsAppAIControl.Collab :=
  { get_chats := [],
    get_chat_messages := fun _ _ => windowMsgs,
    send_message := fun _ _ => false,
    gemini := fun _ _ => "",
    json_loads := fun _ => Except.error "JSONDecodeError" }

/-- A standalone-client collaborator whose model always answers in plain
prose with no brace-delimited object. -/
def plainReplyCollab : WhatsAppAIControl.Collab :=
  { get_chats := [],
    get_chat_messages := fun _ _ => [],
    send_message := fun _ _ => false,
    gemini := fun _ _ => "Sure, I can do that for you right away.",
    json_loads := fun _ => Except.error "JSONDecodeError" }

/-- An MCP-client collaborator whose send operation always fails. -/
def sendFailCollab : WhatsAppAIControlMCP.Collab :=
  { get_chats := [],
    get_chat_messages := fun _ _ => [],
    send_message := fun _ _ => false,
    gemini := fun _ _ => "",
    json_loads := fun _ => Except.error "JSONDecodeError",
    mcp_get_contacts := [],
    mcp_get_messages := fun _ _ => [],
    repr_dict := fun _ => "" }

/-- An MCP-client session knowing the single contact `Alice`. -/
def aliceState : WhatsAppAIControlMCP.State :=
  { use_mcp := false, auto_reply := false, last_contact := none,
    contact_list := ["Alice"], message_history := [] }

/-- An MCP-client collaborator with exactly one incoming message from Bob. -/
def bobCollab : WhatsAppAIControlMCP.Collab :=
  { get_chats := [],
    get_chat_messages := fun _ _ => [{ text := "hey", sender := "Bob", type := Direction.incoming }],
    send_message := fun _ _ => false,
    gemini := fun _ _ => "",
    json_loads := fun _ => Except.error "JSONDecodeError",
    mcp_get_contacts := [],
    mcp_get_messages := fun _ _ => [],
    repr_dict := fun _ => "" }

/-- An MCP-client session in MCP mode, knowing `Bob`. -/
def bobState : WhatsAppAIControlMCP.State :=
  { use_mcp := true, auto_reply := false, last_contact := none,
    contact_list := ["Bob"], message_history := [] }

/-! ## Helper lemmas -/

/-- Reduction of the `read`/`position_from_contact` branch of the standalone
executor (shared by the positional-query theorems). -/
theorem execute_action_read_position (c : WhatsAppAIControl.Collab)
    (st : WhatsAppAIControl.State) (contact : String) (cnt pos : Nat) :
    WhatsAppAIControl.execute_action c st
        { action := some "read", contact := some contact, count := some cnt,
          query_type := some "position_from_contact", position := some pos }
      = (if c.get_chat_messages contact cnt = [] then (st, "No messages with " ++ contact)
         else if ((c.get_chat_messages contact cnt).filter
                    (fun m => m.type == Direction.incoming)) ≠ []
             ∧ pos ≤ ((c.get_chat_messages contact cnt).filter
                    (fun m => m.type == Direction.incoming)).length then
           (st, "📖 **" ++ pyCapitalize (WhatsAppAIControl.positionText pos)
             ++ " message from " ++ contact ++ ":** "
             ++ (pyNegGet ((c.get_chat_messages contact cnt).filter
                   (fun m => m.type == Direction.incoming)) pos).text)
         else
           (st, "Not enough messages from " ++ contact ++ " (only "
             ++ toString ((c.get_chat_messages contact cnt).filter
                   (fun m => m.type == Direction.incoming)).length ++ " found)")) := rfl

/-- The code's ordinal suffix agrees with the spec's description of it. -/
theorem pySuffix_eq_specOrdinalSuffix (n : Nat) :
    WhatsAppAIControl.pySuffix n = specOrdinalSuffix n := by
  have h10 : n % 100 % 10 = n % 10 := Nat.mod_mod_of_dvd n (by norm_num)
  have h100 : n % 100 < 100 := Nat.mod_lt _ (by norm_num)
  unfold WhatsAppAIControl.pySuffix specOrdinalSuffix
  rw [← h10]
  revert h100
  generalize n % 100 = m
  intro h100
  exact (by decide : ∀ m' < 100,
    (if 10 ≤ m' ∧ m' ≤ 20 then "th"
     else if m' % 10 = 1 then "st"
     else if m' % 10 = 2 then "nd"
     else if m' % 10 = 3 then "rd"
     else "th")
    = (if 11 ≤ m' ∧ m' ≤ 19 then "th"
       else if m' % 10 = 1 then "st"
       else if m' % 10 = 2 then "nd"
       else if m' % 10 = 3 then "rd"
       else "th")) m h100

/-- An empty lowering forces an empty string. -/
theorem pyLower_eq_empty {s : String} (h : pyLower s = "") : s = "" := by
  cases s with
  | mk d =>
    have hd : d.map Char.toLower = [] := congrArg String.data h
    have : d = [] := List.map_eq_nil_iff.mp hd
    simp [this]

/-- C3: for every position ≥ 1 the user-facing phrase is "last" at 1 and
otherwise the number with the spec's English ordinal suffix followed by
" last", with 2, 3, 11, 12 and 21 as concrete checks. -/
theorem C3_ordinal_phrase (n : Nat) :
    (1 ≤ n → WhatsAppAIControl.positionText n
      = (if n = 1 then "last" else toString n ++ specOrdinalSuffix n ++ " last"))
    ∧ WhatsAppAIControl.positionText 1 = "last"
    ∧ WhatsAppAIControl.positionText 2 = "2nd last"
    ∧ WhatsAppAIControl.positionText 3 = "3rd last"
    ∧ WhatsAppAIControl.positionText 11 = "11th last"
    ∧ WhatsAppAIControl.positionText 12 = "12th last"
    ∧ WhatsAppAIControl.positionText 21 = "21st last" := by
  refine ⟨fun _ => ?_, by decide, by decide, by decide, by decide, by decide, by decide⟩
  unfold WhatsAppAIControl.positionText WhatsAppAIControl.ordinal
  rw [pySuffix_eq_specOrdinalSuffix]

/-- C3 witness: the phrase theorem at position 21. -/
theorem C3_ordinal_phrase_witness :
    (1 ≤ 21 → WhatsAppAIControl.positionText 21
      = (if 21 = 1 then "last" else toString 21 ++ specOrdinalSuffix 21 ++ " last"))
    ∧ WhatsAppAIControl.positionText 1 = "last"
    ∧ WhatsAppAIControl.positionText 2 = "2nd last"
    ∧ WhatsAppAIControl.positionText 3 = "3rd last"
    ∧ WhatsAppAIControl.positionText 11 = "11th last"
    ∧ WhatsAppAIControl.positionText 12 = "12th last"
    ∧ WhatsAppAIControl.positionText 21 = "21st last" :=
  C3_ordinal_phrase 21

/-- C1: for every retrieved window and position ≥ 1 within the incoming
count, the `position_from_contact` query filters to incoming messages and
answers with the element `position` places from the end; on the spec's
concrete window, `last_from_contact` answers "bye" and position 2 answers
"sup". -/
theorem C1_position_from_contact (c : WhatsAppAIControl.Collab)
    (st : WhatsAppAIControl.State) (contact : String) (cnt pos : Nat)
    (h1 : 1 ≤ pos)
    (h2 : pos ≤ ((c.get_chat_messages contact cnt).filter
            (fun m => m.type == Direction.incoming)).length) :
    WhatsAppAIControl.execute_action c st
        { action := some "read", contact := some contact, count := some cnt,
          query_type := some "position_from_contact", position := some pos }
      = (st, "📖 **" ++ pyCapitalize (WhatsAppAIControl.positionText pos)
          ++ " message from " ++ contact ++ ":** "
          ++ (((c.get_chat_messages contact cnt).filter
                (fun m => m.type == Direction.incoming)).getD
              ((((c.get_chat_messages contact cnt).filter
                (fun m => m.type == Direction.incoming)).length) - pos) default).text)
    ∧ (WhatsAppAIControl.execute_action windowCollab st
        { action := some "read", contact := some "Priya", count := some 4,
          query_type := some "last_from_contact" }).2
      = "📖 **Last message from Priya:** bye"
    ∧ (WhatsAppAIControl.execute_action windowCollab st
        { action := some "read", contact := some "Priya", count := some 4,
          query_type := some "position_from_contact", position := some 2 }).2
      = "📖 **2nd last message from Priya:** sup" := by
  refine ⟨?_, rfl, rfl⟩
  have hincne : ((c.get_chat_messages contact cnt).filter
      (fun m => m.type == Direction.incoming)) ≠ [] := by
    intro h0
    rw [h0] at h2
    simp at h2
    omega
  have hmsgsne : c.get_chat_messages contact cnt ≠ [] := by
    intro h0
    apply hincne
    rw [h0]
    rfl
  rw [execute_action_read_position, if_neg hmsgsne, if_pos ⟨hincne, h2⟩]
  unfold pyNegGet
  rw [if_neg (by omega : ¬ pos = 0)]

/-- C1 witness: the general theorem at the spec's concrete window with
position 2. -/
theorem C1_position_from_contact_witness :
    WhatsAppAIControl.execute_action windowCollab { running := true, auto_reply := false }
        { action := some "read", contact := some "Priya", count := some 4,
          query_type := some "position_from_contact", position := some 2 }
      = ({ running := true, auto_reply := false },
         "📖 **" ++ pyCapitalize (WhatsAppAIControl.positionText 2)
          ++ " message from " ++ "Priya" ++ ":** "
          ++ (((windowCollab.get_chat_messages "Priya" 4).filter
                (fun m => m.type == Direction.incoming)).getD
              ((((windowCollab.get_chat_messages "Priya" 4).filter
                (fun m => m.type == Direction.incoming)).length) - 2) default).text)
    ∧ (WhatsAppAIControl.execute_action windowCollab { running := true, auto_reply := false }
        { action := some "read", contact := some "Priya", count := some 4,
          query_type := some "last_from_contact" }).2
      = "📖 **Last message from Priya:** bye"
    ∧ (WhatsAppAIControl.execute_action windowCollab { running := true, auto_reply := false }
        { action := some "read", contact := some "Priya", count := some 4,
          query_type := some "position_from_contact", position := some 2 }).2
      = "📖 **2nd last message from Priya:** sup" :=
  C1_position_from_contact windowCollab { running := true, auto_reply := false }
    "Priya" 4 2 (by decide) (by decide)

/-- C2 (amended): with a non-empty window and a position exceeding the
incoming count, the standalone executor returns the not-found text, which
states the number of incoming messages found (but not the requested
position), and raises nothing. -/
theorem C2_position_overflow (c : WhatsAppAIControl.Collab)
    (st : WhatsAppAIControl.State) (contact : String) (cnt pos : Nat)
    (hm : c.get_chat_messages contact cnt ≠ [])
    (h2 : ((c.get_chat_messages contact cnt).filter
            (fun m => m.type == Direction.incoming)).length < pos) :
    WhatsAppAIControl.execute_action c st
        { action := some "read", contact := some contact, count := some cnt,
          query_type := some "position_from_contact", position := some pos }
      = (st, "Not enough messages from " ++ contact ++ " (only "
          ++ toString ((c.get_chat_messages contact cnt).filter
               (fun m => m.type == Direction.incoming)).length ++ " found)") := by
  rw [execute_action_read_position, if_neg hm, if_neg]
  rintro ⟨-, hle⟩
  omega

/-- C2 witness: the amended theorem on the concrete window with position 5. -/
theorem C2_position_overflow_witness :
    WhatsAppAIControl.execute_action windowCollab { running := true, auto_reply := false }
        { action := some "read", contact := some "Priya", count := some 4,
          query_type := some "position_from_contact", position := some 5 }
      = ({ running := true, auto_reply := false },
         "Not enough messages from " ++ "Priya" ++ " (only "
          ++ toString ((windowCollab.get_chat_messages "Priya" 4).filter
               (fun m => m.type == Direction.incoming)).length ++ " found)") :=
  C2_position_overflow windowCollab { running := true, auto_reply := false }
    "Priya" 4 5 (by decide) (by decide)

/-- C2 counterexample: the not-found text of the standalone executor does
not state the requested position (no "5" anywhere in it), and the MCP client
path raises `NameError` instead of returning not-found whenever any incoming
message exists. -/
theorem C2_position_overflow_counterexample :
    (WhatsAppAIControl.execute_action windowCollab { running := true, auto_reply := false }
        { action := some "read", contact := some "Priya", count := some 4,
          query_type := some "position_from_contact", position := some 5 }).2
      = "Not enough messages from Priya (only 3 found)"
    ∧ strContains "5" "Not enough messages from Priya (only 3 found)" = false
    ∧ (WhatsAppAIControlMCP.process_command_mcp bobCollab
        (some { response_type := some "whatsapp_command_result",
                content := some { action := some "read", contact := some "Bob",
                                  query_type := some "position_from_contact",
                                  position := some 5 } })
        bobState "what was the 5th last message from Bob").2.1
      = Except.error "NameError: name 'position' is not defined" :=
  ⟨rfl, by decide, rfl⟩

/-- C4: when some known contact equals the candidate case-insensitively,
both resolvers return the first such contact, independently of the fuzzy
collaborator — exact equality short-circuits the fuzzy and substring
rules. -/
theorem C4_exact_match_short_circuits
    (fz fz' : String → List String → Option String) (name : String)
    (cl : List String) (c₀ : String)
    (h : cl.find? (fun c => pyLower c == pyLower name) = some c₀) :
    WhatsAppAIControlMCP.find_best_contact_match fz name cl = c₀
    ∧ WhatsAppAIControlMCP.find_best_contact_match fz name cl
      = WhatsAppAIControlMCP.find_best_contact_match fz' name cl
    ∧ MCPServer.server_match_contact fz name cl = c₀
    ∧ MCPServer.server_match_contact fz name cl
      = MCPServer.server_match_contact fz' name cl := by
  have hcl : cl ≠ [] := by rintro rfl; simp at h
  have hfb : ∀ g : String → List String → Option String,
      WhatsAppAIControlMCP.find_best_contact_match g name cl = c₀ := by
    intro g
    unfold WhatsAppAIControlMCP.find_best_contact_match
    rw [if_neg hcl, h]
  have hsm : ∀ g : String → List String → Option String,
      MCPServer.server_match_contact g name cl = c₀ := by
    intro g
    unfold MCPServer.server_match_contact
    by_cases hn : name = ""
    · subst hn
      have hp := List.find?_some h
      have h0 : pyLower c₀ = "" := by simpa using hp
      have hc : c₀ = "" := pyLower_eq_empty h0
      rw [if_neg (by simp), hc]
    · rw [if_pos ⟨hn, hcl⟩, h]
  exact ⟨hfb fz, (hfb fz).trans (hfb fz').symm, hsm fz, (hsm fz).trans (hsm fz').symm⟩

/-- C4 witness: `alice` resolves to the known contact `Alice` under two
different fuzzy collaborators. -/
theorem C4_exact_match_short_circuits_witness :
    WhatsAppAIControlMCP.find_best_contact_match (fun _ _ => none) "alice" ["Bob", "Alice"] = "Alice"
    ∧ WhatsAppAIControlMCP.find_best_contact_match (fun _ _ => none) "alice" ["Bob", "Alice"]
      = WhatsAppAIControlMCP.find_best_contact_match (fun _ _ => some "X") "alice" ["Bob", "Alice"]
    ∧ MCPServer.server_match_contact (fun _ _ => none) "alice" ["Bob", "Alice"] = "Alice"
    ∧ MCPServer.server_match_contact (fun _ _ => none) "alice" ["Bob", "Alice"]
      = MCPServer.server_match_contact (fun _ _ => some "X") "alice" ["Bob", "Alice"] :=
  C4_exact_match_short_circuits (fun _ _ => none) (fun _ _ => some "X")
    "alice" ["Bob", "Alice"] "Alice" (by decide)

/-- C5 counterexample: the two-character candidate `Al` resolves to `Alice`
in `find_best_contact_match` although neither the exact rule nor the fuzzy
rule (the real `get_close_matches` cutoff rejects both contacts) fires, so
the substring-containment rule resolved it despite `len("Al") < 3`. -/
theorem C5_substring_short_name_counterexample :
    WhatsAppAIControlMCP.find_best_contact_match getCloseMatches1 "Al" ["Alice", "Albert"] = "Alice"
    ∧ ("Al" : String).length < 3
    ∧ (["Alice", "Albert"].find? (fun c => pyLower c == pyLower "Al")) = none
    ∧ getCloseMatches1 "Al" ["Alice", "Albert"] = none :=
  ⟨by decide, by decide, by decide, by decide⟩

/-- C5 (amended): the `len ≥ 3` guard exists only in `send_message`'s
recent-chat partial match, where a short candidate can select only via exact
equality; `find_best_contact_match` applies bidirectional substring
containment with no length guard whenever exact and fuzzy both fail. -/
theorem C5_substring_rules (chats : List String) (name : String) (cl : List String)
    (fz : String → List String → Option String)
    (hlen : name.length < 3)
    (hne : cl ≠ [])
    (hex : cl.find? (fun c => pyLower c == pyLower name) = none)
    (hfz : fz name cl = none) :
    WhatsAppAIControl.send_select_from_recent chats name
      = chats.find? (fun n => pyLower n == pyLower name)
    ∧ WhatsAppAIControlMCP.find_best_contact_match fz name cl
      = (cl.find? (fun contact =>
          strContains (pyLower name) (pyLower contact)
            || strContains (pyLower contact) (pyLower name))).getD name := by
  constructor
  · unfold WhatsAppAIControl.send_select_from_recent
    have hnone : chats.find? (fun n =>
        strContains (pyLower name) (pyLower n) && decide (3 ≤ name.length)) = none := by
      apply List.find?_eq_none.mpr
      intro x _
      have hfalse : decide (3 ≤ name.length) = false := by
        simp only [decide_eq_false_iff_not]
        omega
      simp [hfalse]
    cases hfind : chats.find? (fun n => pyLower n == pyLower name) with
    | some n => simp [hfind]
    | none => simp [hfind, hnone]
  · unfold WhatsAppAIControlMCP.find_best_contact_match
    rw [if_neg hne, hex, hfz]
    cases hsub : cl.find? (fun contact =>
        strContains (pyLower name) (pyLower contact)
          || strContains (pyLower contact) (pyLower name)) with
    | some contact => simp [hsub]
    | none => simp [hsub]

/-- C5 witness: the amended theorem at `Al` against `["Alice", "Albert"]`
with the modelled `get_close_matches` as the fuzzy collaborator. -/
theorem C5_substring_rules_witness :
    WhatsAppAIControl.send_select_from_recent ["Alice"] "Al"
      = (["Alice"].find? (fun n => pyLower n == pyLower "Al"))
    ∧ WhatsAppAIControlMCP.find_best_contact_match getCloseMatches1 "Al" ["Alice", "Albert"]
      = ((["Alice", "Albert"]).find? (fun contact =>
          strContains (pyLower "Al") (pyLower contact)
            || strContains (pyLower contact) (pyLower "Al"))).getD "Al" :=
  C5_substring_rules ["Alice"] "Al" ["Alice", "Albert"] getCloseMatches1
    (by decide) (by decide) (by decide) (by decide)

/-- C6 counterexample: 51 new-message appends of the ai-control monitor loop
leave 51 entries for one contact — its history is unbounded, exceeding the
50-entry cap. -/
theorem C6_history_unbounded_counterexample :
    ((List.replicate 51 (HistEntry.mk 0 "m")).foldl monitorAppendControl []).length = 51
    ∧ 50 < 51 :=
  ⟨by decide, by decide⟩

/-- C6 (amended): the interactive client's new-message append keeps at most
50 entries and drops only the oldest (the result is a suffix of the appended
list, and below the cap nothing is dropped); the ai-control monitor's append
is a plain unbounded append. -/
theorem C6_history_cap (h : List HistEntryI) (e : HistEntryI) :
    (monitorAppendInteractive h e).length ≤ 50
    ∧ (∃ k, monitorAppendInteractive h e = (h ++ [e]).drop k)
    ∧ (h.length < 50 → monitorAppendInteractive h e = h ++ [e])
    ∧ ∀ (h' : List HistEntry) (e' : HistEntry), monitorAppendControl h' e' = h' ++ [e'] := by
  simp only [monitorAppendInteractive, takeLast]
  refine ⟨?_, ?_, ?_, fun _ _ => rfl⟩
  · split
    · rw [List.length_drop]
      omega
    · next hle =>
      simp only [List.length_append, List.length_singleton] at *
      omega
  · split
    · exact ⟨_, rfl⟩
    · exact ⟨0, by simp⟩
  · intro hlt
    rw [if_neg]
    simp only [List.length_append, List.length_singleton]
    omega

/-- C6 witness: the amended cap theorem at the empty history. -/
theorem C6_history_cap_witness :
    (monitorAppendInteractive [] ⟨0, "x", "incoming"⟩).length ≤ 50
    ∧ (∃ k, monitorAppendInteractive [] ⟨0, "x", "incoming"⟩
        = ([] ++ [(⟨0, "x", "incoming"⟩ : HistEntryI)]).drop k)
    ∧ (([] : List HistEntryI).length < 50 →
        monitorAppendInteractive [] ⟨0, "x", "incoming"⟩
          = [] ++ [(⟨0, "x", "incoming"⟩ : HistEntryI)])
    ∧ ∀ (h' : List HistEntry) (e' : HistEntry), monitorAppendControl h' e' = h' ++ [e'] :=
  C6_history_cap [] ⟨0, "x", "incoming"⟩

/-- C7: a model reply with no brace-delimited object makes `process_command`
fall back to the keyword heuristic: "list my contacts" runs the list action,
"gibberish xyz" ends in the not-understood text, and the fallback always
returns one of its five outcomes, for every command. -/
theorem C7_parser_fallback (c : WhatsAppAIControl.Collab) (st : WhatsAppAIControl.State)
    (h1 : extractJson (c.gemini "list my contacts" WhatsAppAIControl.aiSystemPrompt) = none)
    (h2 : extractJson (c.gemini "gibberish xyz" WhatsAppAIControl.aiSystemPrompt) = none) :
    WhatsAppAIControl.process_command c st "list my contacts"
      = WhatsAppAIControl.execute_action c st { action := some "list" }
    ∧ WhatsAppAIControl.process_command c st "gibberish xyz"
      = (st, "I didn't understand. Try: 'Send John a message' or 'List contacts'")
    ∧ ∀ cmd : String,
        WhatsAppAIControl.handle_direct_command c st cmd
          = WhatsAppAIControl.execute_action c st { action := some "list" }
        ∨ WhatsAppAIControl.handle_direct_command c st cmd
          = WhatsAppAIControl.execute_action c st { action := some "auto_on" }
        ∨ WhatsAppAIControl.handle_direct_command c st cmd
          = WhatsAppAIControl.execute_action c st { action := some "auto_off" }
        ∨ WhatsAppAIControl.handle_direct_command c st cmd
          = WhatsAppAIControl.execute_action c st { action := some "status" }
        ∨ WhatsAppAIControl.handle_direct_command c st cmd
          = (st, "I didn't understand. Try: 'Send John a message' or 'List contacts'") := by
  refine ⟨?_, ?_, ?_⟩
  · unfold WhatsAppAIControl.process_command
    rw [if_neg (by decide), if_neg (by decide)]
    simp only [h1]
    simp only [WhatsAppAIControl.handle_direct_command]
    rw [if_pos (by decide)]
  · unfold WhatsAppAIControl.process_command
    rw [if_neg (by decide), if_neg (by decide)]
    simp only [h2]
    simp only [WhatsAppAIControl.handle_direct_command]
    rw [if_neg (by decide), if_neg (by decide), if_neg (by decide), if_neg (by decide)]
  · intro cmd
    simp only [WhatsAppAIControl.handle_direct_command]
    split_ifs
    · exact Or.inl rfl
    · exact Or.inr (Or.inl rfl)
    · exact Or.inr (Or.inr (Or.inl rfl))
    · exact Or.inr (Or.inr (Or.inr (Or.inl rfl)))
    · exact Or.inr (Or.inr (Or.inr (Or.inr rfl)))

/-- C7 witness: the fallback theorem under a collaborator whose model always
answers plain prose. -/
theorem C7_parser_fallback_witness :
    WhatsAppAIControl.process_command plainReplyCollab { running := true, auto_reply := false }
        "list my contacts"
      = WhatsAppAIControl.execute_action plainReplyCollab { running := true, auto_reply := false }
          { action := some "list" }
    ∧ WhatsAppAIControl.process_command plainReplyCollab { running := true, auto_reply := false }
        "gibberish xyz"
      = ({ running := true, auto_reply := false },
         "I didn't understand. Try: 'Send John a message' or 'List contacts'")
    ∧ ∀ cmd : String,
        WhatsAppAIControl.handle_direct_command plainReplyCollab
            { running := true, auto_reply := false } cmd
          = WhatsAppAIControl.execute_action plainReplyCollab
              { running := true, auto_reply := false } { action := some "list" }
        ∨ WhatsAppAIControl.handle_direct_command plainReplyCollab
            { running := true, auto_reply := false } cmd
          = WhatsAppAIControl.execute_action plainReplyCollab
              { running := true, auto_reply := false } { action := some "auto_on" }
        ∨ WhatsAppAIControl.handle_direct_command plainReplyCollab
            { running := true, auto_reply := false } cmd
          = WhatsAppAIControl.execute_action plainReplyCollab
              { running := true, auto_reply := false } { action := some "auto_off" }
        ∨ WhatsAppAIControl.handle_direct_command plainReplyCollab
            { running := true, auto_reply := false } cmd
          = WhatsAppAIControl.execute_action plainReplyCollab
              { running := true, auto_reply := false } { action := some "status" }
        ∨ WhatsAppAIControl.handle_direct_command plainReplyCollab
            { running := true, auto_reply := false } cmd
          = ({ running := true, auto_reply := false },
             "I didn't understand. Try: 'Send John a message' or 'List contacts'") :=
  C7_parser_fallback plainReplyCollab { running := true, auto_reply := false }
    (by decide) (by decide)

/-- Helper for C8: with MCP mode already off, a directly processed command
makes no relay contact and leaves the mode off. -/
theorem direct_no_relay (c : WhatsAppAIControlMCP.Collab) (st : WhatsAppAIControlMCP.State)
    (d : ActionData) (hmcp : st.use_mcp = false) :
    (WhatsAppAIControlMCP.execute_action_direct c st d).2.2 = 0
    ∧ (WhatsAppAIControlMCP.execute_action_direct c st d).1.use_mcp = false := by
  simp only [WhatsAppAIControlMCP.execute_action_direct]
  split_ifs <;> simp_all

/-- Helper for C8: with MCP mode off, action execution goes through the
direct executor. -/
theorem execute_action_not_mcp (c : WhatsAppAIControlMCP.Collab)
    (st : WhatsAppAIControlMCP.State) (d : ActionData) (hmcp : st.use_mcp = false) :
    WhatsAppAIControlMCP.execute_action c st d
      = WhatsAppAIControlMCP.execute_action_direct c st d := by
  unfold WhatsAppAIControlMCP.execute_action
  rw [hmcp]
  simp

/-- Helper for C8: the direct command path with MCP mode off makes no relay
contact and leaves the mode off. -/
theorem direct_command_no_relay (c : WhatsAppAIControlMCP.Collab)
    (st : WhatsAppAIControlMCP.State) (command : String) (hmcp : st.use_mcp = false) :
    (WhatsAppAIControlMCP.process_command_direct c st command).2.2 = 0
    ∧ (WhatsAppAIControlMCP.process_command_direct c st command).1.use_mcp = false := by
  simp only [WhatsAppAIControlMCP.process_command_direct]
  split
  · split
    · rw [execute_action_not_mcp c st _ hmcp]
      exact direct_no_relay c st _ hmcp
    · exact ⟨rfl, hmcp⟩
  · exact ⟨rfl, hmcp⟩

/-- C8: a relay round trip returning nothing within the bounded wait makes
exactly one relay contact, downgrades to standalone exactly once, and the
same command is answered by the direct path with no further relay use. -/
theorem C8_relay_timeout_downgrade (c : WhatsAppAIControlMCP.Collab)
    (st : WhatsAppAIControlMCP.State) (command : String) :
    (WhatsAppAIControlMCP.process_command_mcp c none st command).1.use_mcp = false
    ∧ (WhatsAppAIControlMCP.process_command_mcp c none st command).2.2 = 1
    ∧ WhatsAppAIControlMCP.process_command_mcp c none st command
      = ((WhatsAppAIControlMCP.process_command_direct c { st with use_mcp := false } command).1,
         (WhatsAppAIControlMCP.process_command_direct c { st with use_mcp := false } command).2.1,
         1 + (WhatsAppAIControlMCP.process_command_direct c { st with use_mcp := false } command).2.2) := by
  have hd := direct_command_no_relay c { st with use_mcp := false } command rfl
  refine ⟨hd.2, ?_, rfl⟩
  show 1 + (WhatsAppAIControlMCP.process_command_direct c { st with use_mcp := false } command).2.2 = 1
  rw [hd.1]

/-- C9 counterexample: a send whose candidate resolves to no real match
(exact, fuzzy and substring all fail on `Zzz9`) still mutates `last_contact`
to the unresolved raw name, with the collaborator reporting failure. -/
theorem C9_send_failure_counterexample :
    WhatsAppAIControlMCP.execute_action_direct sendFailCollab aliceState
        { action := some "send", contact := some "Zzz9", message := some "hi" }
      = ({ aliceState with last_contact := some "Zzz9" },
         Except.ok "Failed to send to Zzz9", 0)
    ∧ ¬ ("Zzz9" ∈ aliceState.contact_list)
    ∧ aliceState.contact_list.find? (fun c => pyLower c == pyLower "Zzz9") = none
    ∧ getCloseMatches1 "Zzz9" aliceState.contact_list = none :=
  ⟨rfl, by decide, by decide, by decide⟩

/-- C9 (amended): a send whose collaborator reports `false` returns the
failure text, and `last_contact` is always set to the resolver's output —
including the unresolved raw name — identically in the success and failure
outcomes; only the reported text differs. -/
theorem C9_send_failure (c : WhatsAppAIControlMCP.Collab)
    (st : WhatsAppAIControlMCP.State) (name msg : String)
    (hf : c.send_message
      (WhatsAppAIControlMCP.find_best_contact_match getCloseMatches1 name st.contact_list)
      msg = false) :
    WhatsAppAIControlMCP.execute_action_direct c st
        { action := some "send", contact := some name, message := some msg }
      = ({ st with last_contact := some (WhatsAppAIControlMCP.find_best_contact_match getCloseMatches1 name st.contact_list) },
         Except.ok ("Failed to send to "
           ++ WhatsAppAIControlMCP.find_best_contact_match getCloseMatches1 name st.contact_list),
         0)
    ∧ ∀ c' : WhatsAppAIControlMCP.Collab,
        (WhatsAppAIControlMCP.execute_action_direct c' st
          { action := some "send", contact := some name, message := some msg }).1
        = { st with last_contact := some (WhatsAppAIControlMCP.find_best_contact_match getCloseMatches1 name st.contact_list) } := by
  have step : ∀ c₂ : WhatsAppAIControlMCP.Collab,
      WhatsAppAIControlMCP.execute_action_direct c₂ st
          { action := some "send", contact := some name, message := some msg }
        = (if c₂.send_message
              (WhatsAppAIControlMCP.find_best_contact_match getCloseMatches1 name st.contact_list)
              msg then
             ({ st with last_contact := some (WhatsAppAIControlMCP.find_best_contact_match getCloseMatches1 name st.contact_list) },
              Except.ok ("✓ Sent to "
                ++ WhatsAppAIControlMCP.find_best_contact_match getCloseMatches1 name
                     st.contact_list ++ ": '" ++ msg ++ "'"), 0)
           else
             ({ st with last_contact := some (WhatsAppAIControlMCP.find_best_contact_match getCloseMatches1 name st.contact_list) },
              Except.ok ("Failed to send to "
                ++ WhatsAppAIControlMCP.find_best_contact_match getCloseMatches1 name
                     st.contact_list), 0)) :=
    fun _ => rfl
  constructor
  · rw [step c, hf]
    simp
  · intro c'
    rw [step c']
    split <;> rfl

/-- C9 witness: the amended theorem at the concrete failing send. -/
theorem C9_send_failure_witness :
    WhatsAppAIControlMCP.execute_action_direct sendFailCollab aliceState
        { action := some "send", contact := some "Zzz9", message := some "hi" }
      = ({ aliceState with last_contact := some (WhatsAppAIControlMCP.find_best_contact_match getCloseMatches1 "Zzz9" aliceState.contact_list) },
         Except.ok ("Failed to send to "
           ++ WhatsAppAIControlMCP.find_best_contact_match getCloseMatches1 "Zzz9"
               aliceState.contact_list),
         0)
    ∧ ∀ c' : WhatsAppAIControlMCP.Collab,
        (WhatsAppAIControlMCP.execute_action_direct c' aliceState
          { action := some "send", contact := some "Zzz9", message := some "hi" }).1
        = { aliceState with last_contact := some (WhatsAppAIControlMCP.find_best_contact_match getCloseMatches1 "Zzz9" aliceState.contact_list) } :=
  C9_send_failure sendFailCollab aliceState "Zzz9" "hi" (by decide)

/-- C10: an action kind outside the recognized set leaves both executors'
session state unchanged and returns the literal "Unknown action". -/
theorem C10_unknown_action (c : WhatsAppAIControl.Collab) (st : WhatsAppAIControl.State)
    (c' : WhatsAppAIControlMCP.Collab) (st' : WhatsAppAIControlMCP.State) (d : ActionData)
    (h : ¬ d.action.getD "" ∈ ["send", "list", "summary", "suggest", "read",
          "auto_on", "auto_off", "status", "error"]) :
    WhatsAppAIControl.execute_action c st d = (st, "Unknown action")
    ∧ WhatsAppAIControlMCP.execute_action_direct c' st' d
      = (st', Except.ok "Unknown action", 0) := by
  simp only [List.mem_cons, List.not_mem_nil, or_false, not_or] at h
  obtain ⟨h1, h2, h3, h4, h5, h6, h7, h8, h9⟩ := h
  constructor
  · unfold WhatsAppAIControl.execute_action
    rw [if_neg h1, if_neg h2, if_neg h3, if_neg h4, if_neg h5, if_neg h6, if_neg h7,
      if_neg h8, if_neg h9]
  · unfold WhatsAppAIControlMCP.execute_action_direct
    rw [if_neg h1, if_neg h2, if_neg h5, if_neg h3, if_neg h4, if_neg h6, if_neg h7]

/-- C10 witness: the frame theorem at the unrecognized action "dance". -/
theorem C10_unknown_action_witness :
    WhatsAppAIControl.execute_action windowCollab { running := true, auto_reply := false }
        { action := some "dance" }
      = ({ running := true, auto_reply := false }, "Unknown action")
    ∧ WhatsAppAIControlMCP.execute_action_direct sendFailCollab aliceState
        { action := some "dance" }
      = (aliceState, Except.ok "Unknown action", 0) :=
  C10_unknown_action windowCollab { running := true, auto_reply := false }
    sendFailCollab aliceState { action := some "dance" } (by decide)
